import Mathlib

/-
  Shallow embedding of the finite-element evaluation engine of deal.II:
  the cell evaluator `FEValues` and the face evaluator `FEFaceValues`
  from `deal.II/source/fe/fe_values.cc` together with the data model of
  their header `fe_values.h`.

  Modelling conventions:
  * scalars (`double`) are rationals;
  * the C++ `vector`s and `dFMatrix` tables are Lean lists (of lists),
    read through `List.getD`, so every table keeps its exact size;
  * the debug-mode `Assert` macros abort the computation, which is
    modelled by returning `Except.error` with the corresponding
    exception (`ExcInvalidIndex`, `ExcAccessToUninitializedField`,
    `ExcCannotInitializeField`, `ExcNotImplemented`, `ExcInternalError`);
  * the external collaborators (`FiniteElement`, `Quadrature` and the
    geometry-mapping routines `fill_fe_values` / `fill_fe_face_values`,
    whose bodies live outside `fe_values.cc`) are abstracted as
    structures of deterministic functions, following the spec's
    description of their interfaces.
-/

deriving instance DecidableEq for Except

/-- Entry `(i, j)` of a matrix stored as a list of rows
(the `dFMatrix` access `m(i,j)`); out-of-range reads default to `0`. -/
def ent (m : List (List ℚ)) (i j : ℕ) : ℚ := (m.getD i []).getD j 0

/-- Entry of a rank-3 table, e.g. `shape_gradients[i][j](c)` or
`jacobi_matrices[j](b,c)`. -/
def ent3 (g : List (List (List ℚ))) (i j c : ℕ) : ℚ :=
  ((g.getD i []).getD j []).getD c 0

/-- Entry of a rank-4 table, e.g. `unit_shape_gradients[face][i][j](c)`. -/
def ent4 (g : List (List (List (List ℚ)))) (f i j c : ℕ) : ℚ :=
  (((g.getD f []).getD i []).getD j []).getD c 0

/-- Modelled from the spec: the `UpdateFlags` tag set (`fe_update_flags.h`
is not part of this file's source).  One Boolean per recognized tag; the
spec lists `values`, `gradients`, `quadrature_points`, `support_points`
(ansatz points), `jacobians`, `jacobian_determinant_weights` (JxW) and
`normal_vectors`.  The code of `fe_values.cc` reads every tag except
`update_values`. -/
structure UpdateFlags where
  update_values : Bool
  update_gradients : Bool
  update_q_points : Bool
  update_ansatz_points : Bool
  update_jacobians : Bool
  update_JxW_values : Bool
  update_normal_vectors : Bool
deriving DecidableEq, Repr

/-- The exceptions raised by the `Assert` macros of `fe_values.cc`, plus
a guard marker for the division by the Jacobi determinant (the source
divides unguarded; the embedding makes the division's definedness
explicit). -/
inductive FEError where
  | invalidIndex : ℕ → ℕ → FEError
  | accessToUninitField : FEError
  | cannotInitField : FEError
  | internalError : FEError
  | notImplemented : FEError
  | divisionByZero : FEError
deriving DecidableEq, Repr

/-- Modelled from the spec: the Finite-Element Descriptor (class
`FiniteElement`, outside this file's source) supplies, for a basis index
and a reference-domain point, the scalar value and the reference
gradient of that basis function, plus the total number of basis
functions `total_dofs`. -/
structure FiniteElement where
  dim : ℕ
  total_dofs : ℕ
  shape_value : ℕ → List ℚ → ℚ
  shape_grad : ℕ → List ℚ → List ℚ

/-- Modelled from the spec: the Quadrature Rule (class `Quadrature`,
outside this file's source) supplies an ordered set of reference-domain
points and weights. -/
structure Quadrature where
  n_quadrature_points : ℕ
  quad_point : ℕ → List ℚ
  weight : ℕ → ℚ

/-- Modelled from the spec: the Geometry Mapper for a fixed cell
(`FiniteElement::fill_fe_values`, outside this file's source).  For each
quadrature index it deterministically supplies the Jacobi matrix, the
physical ansatz (support) points and the physical quadrature points. -/
structure CellMapper where
  jacobi : ℕ → List (List ℚ)
  ansatz : ℕ → List ℚ
  qpoint : ℕ → List ℚ

/-- Modelled from the spec: the Geometry Mapper for a fixed cell and a
chosen face (`FiniteElement::fill_fe_face_values`, outside this file's
source).  For a face number and quadrature index it deterministically
supplies the cell Jacobi matrix, ansatz points, physical quadrature
points, the face-Jacobi determinant and the outward normal. -/
structure FaceMapper where
  jacobi : ℕ → ℕ → List (List ℚ)
  ansatz : ℕ → ℕ → List ℚ
  qpoint : ℕ → ℕ → List ℚ
  face_det : ℕ → ℕ → ℚ
  normal : ℕ → ℕ → List ℚ

/-- Modelled from the spec: the determinant of the per-point `dim`×`dim`
Jacobi matrix (`dFMatrix::determinant`, outside this file's source; it
supports dimensions 1 to 3). -/
def determinant (dim : ℕ) (m : List (List ℚ)) : ℚ :=
  match dim with
  | 1 => ent m 0 0
  | 2 => ent m 0 0 * ent m 1 1 - ent m 0 1 * ent m 1 0
  | 3 =>
      ent m 0 0 * (ent m 1 1 * ent m 2 2 - ent m 1 2 * ent m 2 1)
    - ent m 0 1 * (ent m 1 0 * ent m 2 2 - ent m 1 2 * ent m 2 0)
    + ent m 0 2 * (ent m 1 0 * ent m 2 1 - ent m 1 1 * ent m 2 0)
  | _ => 0

/-- The state of a cell evaluator `FEValues<dim>` (fields as declared in
`fe_values.h`). -/
structure FEValuesState where
  dim : ℕ
  n_quadrature_points : ℕ
  total_dofs : ℕ
  shape_values : List (List ℚ)
  shape_gradients : List (List (List ℚ))
  unit_shape_gradients : List (List (List ℚ))
  weights : List ℚ
  JxW_values : List ℚ
  quadrature_points : List (List ℚ)
  unit_quadrature_points : List (List ℚ)
  ansatz_points : List (List ℚ)
  jacobi_matrices : List (List (List ℚ))
  update_flags : UpdateFlags
deriving DecidableEq, Repr

/-- `FEValues<dim>::FEValues` (fe_values.cc lines 15-48): size all
arrays, fill `shape_values` and `unit_shape_gradients` by evaluating the
finite element at the quadrature points, and copy the weights and unit
quadrature points.  The per-cell arrays start zero-filled. -/
def FEValues.construct (fe : FiniteElement) (quadrature : Quadrature)
    (update_flags : UpdateFlags) : FEValuesState :=
  { dim := fe.dim
    n_quadrature_points := quadrature.n_quadrature_points
    total_dofs := fe.total_dofs
    shape_values :=
      (List.range fe.total_dofs).map fun i =>
        (List.range quadrature.n_quadrature_points).map fun j =>
          fe.shape_value i (quadrature.quad_point j)
    shape_gradients :=
      List.replicate fe.total_dofs
        (List.replicate quadrature.n_quadrature_points (List.replicate fe.dim 0))
    unit_shape_gradients :=
      (List.range fe.total_dofs).map fun i =>
        (List.range quadrature.n_quadrature_points).map fun j =>
          fe.shape_grad i (quadrature.quad_point j)
    weights := (List.range quadrature.n_quadrature_points).map quadrature.weight
    JxW_values := List.replicate quadrature.n_quadrature_points 0
    quadrature_points :=
      List.replicate quadrature.n_quadrature_points (List.replicate fe.dim 0)
    unit_quadrature_points :=
      (List.range quadrature.n_quadrature_points).map quadrature.quad_point
    ansatz_points := List.replicate fe.total_dofs (List.replicate fe.dim 0)
    jacobi_matrices :=
      List.replicate quadrature.n_quadrature_points
        (List.replicate fe.dim (List.replicate fe.dim 0))
    update_flags := update_flags }

/-- `FEValues<dim>::shape_value` (lines 52-59): bounds asserts against
the dimensions of the `shape_values` matrix (`total_dofs` rows,
`n_quadrature_points` columns), then the table lookup.  There is no
update-flag assert in this accessor. -/
def FEValuesState.shape_value (s : FEValuesState) (i j : ℕ) : Except FEError ℚ :=
  if ¬ i < s.total_dofs then Except.error (FEError.invalidIndex i s.total_dofs)
  else if ¬ j < s.n_quadrature_points then
    Except.error (FEError.invalidIndex j s.n_quadrature_points)
  else Except.ok (ent s.shape_values i j)

/-- `FEValues<dim>::shape_grad` (lines 63-72): bounds asserts, then the
`update_gradients` assert, then the table lookup. -/
def FEValuesState.shape_grad (s : FEValuesState) (i j : ℕ) :
    Except FEError (List ℚ) :=
  if ¬ i < s.total_dofs then Except.error (FEError.invalidIndex i s.total_dofs)
  else if ¬ j < s.n_quadrature_points then
    Except.error (FEError.invalidIndex j s.n_quadrature_points)
  else if ¬ s.update_flags.update_gradients = true then
    Except.error FEError.accessToUninitField
  else Except.ok ((s.shape_gradients.getD i []).getD j [])

/-- `FEValues<dim>::quadrature_point` (lines 76-82). -/
def FEValuesState.quadrature_point (s : FEValuesState) (i : ℕ) :
    Except FEError (List ℚ) :=
  if ¬ i < s.n_quadrature_points then
    Except.error (FEError.invalidIndex i s.n_quadrature_points)
  else if ¬ s.update_flags.update_q_points = true then
    Except.error FEError.accessToUninitField
  else Except.ok (s.quadrature_points.getD i [])

/-- `FEValues<dim>::ansatz_point` (lines 86-92); the spec calls these
support points.  The bound is the size of the `ansatz_points` vector,
which is `total_dofs`. -/
def FEValuesState.ansatz_point (s : FEValuesState) (i : ℕ) :
    Except FEError (List ℚ) :=
  if ¬ i < s.total_dofs then Except.error (FEError.invalidIndex i s.total_dofs)
  else if ¬ s.update_flags.update_ansatz_points = true then
    Except.error FEError.accessToUninitField
  else Except.ok (s.ansatz_points.getD i [])

/-- `FEValues<dim>::JxW` (lines 96-102). -/
def FEValuesState.JxW (s : FEValuesState) (i : ℕ) : Except FEError ℚ :=
  if ¬ i < s.n_quadrature_points then
    Except.error (FEError.invalidIndex i s.n_quadrature_points)
  else if ¬ s.update_flags.update_JxW_values = true then
    Except.error FEError.accessToUninitField
  else Except.ok (s.JxW_values.getD i 0)

/-- The conditional call of `fe.fill_fe_values` in `FEValues::reinit`
(lines 112-123): if any of `update_jacobians`, `update_q_points`,
`update_ansatz_points` is requested, the Geometry Mapper overwrites the
individually requested arrays (each array is filled exactly when its own
flag is set, as the call passes `update_flags & update_jacobians`
etc.). -/
def fill_fe_values (m : CellMapper) (s : FEValuesState) : FEValuesState :=
  if s.update_flags.update_jacobians = true ∨ s.update_flags.update_q_points = true ∨
      s.update_flags.update_ansatz_points = true then
    { s with
      jacobi_matrices :=
        if s.update_flags.update_jacobians = true then
          (List.range s.n_quadrature_points).map m.jacobi
        else s.jacobi_matrices
      ansatz_points :=
        if s.update_flags.update_ansatz_points = true then
          (List.range s.total_dofs).map m.ansatz
        else s.ansatz_points
      quadrature_points :=
        if s.update_flags.update_q_points = true then
          (List.range s.n_quadrature_points).map m.qpoint
        else s.quadrature_points }
  else s

/-- The triple loop of the gradients block shared by `FEValues::reinit`
(lines 131-144) and `FEFaceValues::reinit` (lines 356-369): for `i`
below the `total_dofs` of the finite element passed to `reinit`, `j`
below `n_quadrature_points` and component `c` below `dim`, the
chain-rule sum `(grad psi)_c = sum_b (grad_{xi eta})_b J_{bc}` over the
reference-gradient table `usg` and the Jacobi matrices `jm`. -/
def gradTable (total n dim : ℕ) (usg : List (List (List ℚ)))
    (jm : List (List (List ℚ))) : List (List (List ℚ)) :=
  (List.range total).map fun i =>
    (List.range n).map fun j =>
      (List.range dim).map fun c =>
        ∑ b ∈ Finset.range dim, ent3 usg i j b * ent3 jm j b c

/-- The loop of the cell JxW block (lines 156-157):
`JxW_values[j] = weights[j] / jacobi_matrices[j].determinant()`. -/
def cellJxWTable (n dim : ℕ) (w : List ℚ) (jm : List (List (List ℚ))) : List ℚ :=
  (List.range n).map fun j => w.getD j 0 / determinant dim (jm.getD j [])

/-- The loop of the face JxW block (lines 381-382):
`JxW_values[j] = weights[j] * face_jacobi_determinants[j]`. -/
def faceJxWTable (n : ℕ) (w fd : List ℚ) : List ℚ :=
  (List.range n).map fun j => w.getD j 0 * fd.getD j 0

/-- The state computed by `FEValues<dim>::reinit` when no assert fires:
the conditional fill, then the gradients block, then the JxW block. -/
def cellRun (fe : FiniteElement) (m : CellMapper) (s : FEValuesState) :
    FEValuesState :=
  let s1 := fill_fe_values m s
  let s2 :=
    if s.update_flags.update_gradients = true then
      { s1 with shape_gradients := gradTable fe.total_dofs
                    s.n_quadrature_points s.dim s.unit_shape_gradients
                    s1.jacobi_matrices }
    else s1
  if s.update_flags.update_JxW_values = true then
    { s2 with JxW_values := cellJxWTable s.n_quadrature_points s.dim
                s.weights s1.jacobi_matrices }
  else s2

/-- `FEValues<dim>::reinit` (lines 106-159).  After the conditional
fill, the gradients block (lines 127-145) asserts `update_jacobians`
and recomputes every physical gradient by the chain-rule sum
`(grad psi)_s = (grad_{xi eta})_b J_{bs}`; the JxW block (lines 153-158)
asserts `update_jacobians` and sets `JxW_values[i] =
weights[i] / jacobi_matrices[i].determinant()`.  The division is
guarded in the embedding: a zero determinant at a used quadrature point
yields `FEError.divisionByZero`.  The loop bounds are those of the
source: `i < fe.total_dofs` with the `fe` argument passed to `reinit`,
`j < n_quadrature_points` and components below `dim`.  `update_flags`,
`n_quadrature_points`, `dim` and the construction-time tables
(`weights`, `unit_shape_gradients`) are members never written by
`reinit`, so they are read from `s` throughout. -/
def cellReinit (fe : FiniteElement) (m : CellMapper) (s : FEValuesState) :
    Except FEError FEValuesState :=
  let s1 := fill_fe_values m s
  if s.update_flags.update_gradients = true ∧
      ¬ s.update_flags.update_jacobians = true then
    Except.error FEError.cannotInitField
  else if s.update_flags.update_JxW_values = true ∧
      ¬ s.update_flags.update_jacobians = true then
    Except.error FEError.cannotInitField
  else if s.update_flags.update_JxW_values = true ∧
      ¬ ∀ j ∈ Finset.range s.n_quadrature_points,
        determinant s.dim (s1.jacobi_matrices.getD j []) ≠ 0 then
    Except.error FEError.divisionByZero
  else Except.ok (cellRun fe m s)

/-- A sequence of `reinit` calls on a cell evaluator, each with its own
finite element and Geometry Mapper (i.e. its own cell). -/
def cellReinits (steps : List (FiniteElement × CellMapper)) (s : FEValuesState) :
    Except FEError FEValuesState :=
  match steps with
  | [] => Except.ok s
  | p :: rest => (cellReinit p.1 p.2 s).bind (cellReinits rest)

/-- The state of a face evaluator `FEFaceValues<dim>` (fields as
declared in `fe_values.h`; the per-face arrays `shape_values`,
`unit_shape_gradients` and `global_unit_quadrature_points` have one
entry per face, `2*dim` in total). -/
structure FEFaceValuesState where
  dim : ℕ
  n_quadrature_points : ℕ
  total_dofs : ℕ
  shape_values : List (List (List ℚ))
  shape_gradients : List (List (List ℚ))
  unit_shape_gradients : List (List (List (List ℚ)))
  weights : List ℚ
  JxW_values : List ℚ
  quadrature_points : List (List ℚ)
  unit_quadrature_points : List (List ℚ)
  global_unit_quadrature_points : List (List (List ℚ))
  ansatz_points : List (List ℚ)
  jacobi_matrices : List (List (List ℚ))
  face_jacobi_determinants : List ℚ
  normal_vectors : List (List ℚ)
  update_flags : UpdateFlags
  selected_face : ℕ
deriving DecidableEq, Repr

/-- The 2-D case of the `switch` in `FEFaceValues::FEFaceValues`
(lines 205-231): the embedding of a face coordinate `t` into the unit
cell.  Face numbers above 3 hit the `ExcInternalError` assert in the
source; they are unreachable because the loop runs `face < 2*dim`. -/
def faceEmbed2 (t : ℚ) (face : ℕ) : List ℚ :=
  match face with
  | 0 => [t, 0]
  | 1 => [1, t]
  | 2 => [t, 1]
  | 3 => [0, t]
  | _ => []

/-- `FEFaceValues<dim>::FEFaceValues` (lines 168-250).  The member-init
list zero-fills all arrays and sets `selected_face = 0`; the loop over
faces and points runs the `switch (dim)` whose only implemented case is
`dim = 2` (any other dimension hits `Assert (false, ExcNotImplemented())`
as soon as the loop body executes, i.e. when `2*dim` and
`n_quadrature_points` are positive).  NOTE, faithful to the source: this
loop reads `unit_quadrature_points[p](0)` BEFORE the later loop (lines
236-240) copies the quadrature points into `unit_quadrature_points`, so
it reads the zero points of the member-init list; the embedded
coordinate is therefore always `0`.  The per-face `shape_values` and
`unit_shape_gradients` tables are then evaluated at the embedded
points. -/
def FEFaceValues.construct (fe : FiniteElement) (quadrature : Quadrature)
    (update_flags : UpdateFlags) : Except FEError FEFaceValuesState :=
  if fe.dim ≠ 2 ∧ 0 < 2 * fe.dim ∧ 0 < quadrature.n_quadrature_points then
    Except.error FEError.notImplemented
  else
    let n := quadrature.n_quadrature_points
    let init_unit_qp : List (List ℚ) :=
      List.replicate n (List.replicate (fe.dim - 1) 0)
    let gu : List (List (List ℚ)) :=
      (List.range (2 * fe.dim)).map fun face =>
        (List.range n).map fun p =>
          faceEmbed2 ((init_unit_qp.getD p []).getD 0 0) face
    Except.ok
      { dim := fe.dim
        n_quadrature_points := n
        total_dofs := fe.total_dofs
        shape_values :=
          (List.range (2 * fe.dim)).map fun face =>
            (List.range fe.total_dofs).map fun i =>
              (List.range n).map fun j =>
                fe.shape_value i ((gu.getD face []).getD j [])
        shape_gradients :=
          List.replicate fe.total_dofs
            (List.replicate n (List.replicate fe.dim 0))
        unit_shape_gradients :=
          (List.range (2 * fe.dim)).map fun face =>
            (List.range fe.total_dofs).map fun i =>
              (List.range n).map fun j =>
                fe.shape_grad i ((gu.getD face []).getD j [])
        weights := (List.range n).map quadrature.weight
        JxW_values := List.replicate n 0
        quadrature_points := List.replicate n (List.replicate fe.dim 0)
        unit_quadrature_points := (List.range n).map quadrature.quad_point
        global_unit_quadrature_points := gu
        ansatz_points := List.replicate fe.total_dofs (List.replicate fe.dim 0)
        jacobi_matrices :=
          List.replicate n (List.replicate fe.dim (List.replicate fe.dim 0))
        face_jacobi_determinants := List.replicate n 0
        normal_vectors := List.replicate n (List.replicate fe.dim 0)
        update_flags := update_flags
        selected_face := 0 }

/-- `FEFaceValues<dim>::shape_value` (lines 254-263): bounds asserts
against the dimensions of `shape_values[selected_face]` (every face's
matrix is `total_dofs` by `n_quadrature_points`), then the lookup in the
table of the currently selected face.  No update-flag assert. -/
def FEFaceValuesState.shape_value (s : FEFaceValuesState) (i j : ℕ) :
    Except FEError ℚ :=
  if ¬ i < s.total_dofs then Except.error (FEError.invalidIndex i s.total_dofs)
  else if ¬ j < s.n_quadrature_points then
    Except.error (FEError.invalidIndex j s.n_quadrature_points)
  else Except.ok (ent3 s.shape_values s.selected_face i j)

/-- `FEFaceValues<dim>::shape_grad` (lines 267-278). -/
def FEFaceValuesState.shape_grad (s : FEFaceValuesState) (i j : ℕ) :
    Except FEError (List ℚ) :=
  if ¬ i < s.total_dofs then Except.error (FEError.invalidIndex i s.total_dofs)
  else if ¬ j < s.n_quadrature_points then
    Except.error (FEError.invalidIndex j s.n_quadrature_points)
  else if ¬ s.update_flags.update_gradients = true then
    Except.error FEError.accessToUninitField
  else Except.ok ((s.shape_gradients.getD i []).getD j [])

/-- `FEFaceValues<dim>::quadrature_point` (lines 282-288). -/
def FEFaceValuesState.quadrature_point (s : FEFaceValuesState) (i : ℕ) :
    Except FEError (List ℚ) :=
  if ¬ i < s.n_quadrature_points then
    Except.error (FEError.invalidIndex i s.n_quadrature_points)
  else if ¬ s.update_flags.update_q_points = true then
    Except.error FEError.accessToUninitField
  else Except.ok (s.quadrature_points.getD i [])

/-- `FEFaceValues<dim>::ansatz_point` (lines 292-298). -/
def FEFaceValuesState.ansatz_point (s : FEFaceValuesState) (i : ℕ) :
    Except FEError (List ℚ) :=
  if ¬ i < s.total_dofs then Except.error (FEError.invalidIndex i s.total_dofs)
  else if ¬ s.update_flags.update_ansatz_points = true then
    Except.error FEError.accessToUninitField
  else Except.ok (s.ansatz_points.getD i [])

/-- `FEFaceValues<dim>::normal_vector` (lines 302-308). -/
def FEFaceValuesState.normal_vector (s : FEFaceValuesState) (i : ℕ) :
    Except FEError (List ℚ) :=
  if ¬ i < s.n_quadrature_points then
    Except.error (FEError.invalidIndex i s.n_quadrature_points)
  else if ¬ s.update_flags.update_normal_vectors = true then
    Except.error FEError.accessToUninitField
  else Except.ok (s.normal_vectors.getD i [])

/-- `FEFaceValues<dim>::JxW` (lines 312-318). -/
def FEFaceValuesState.JxW (s : FEFaceValuesState) (i : ℕ) : Except FEError ℚ :=
  if ¬ i < s.n_quadrature_points then
    Except.error (FEError.invalidIndex i s.n_quadrature_points)
  else if ¬ s.update_flags.update_JxW_values = true then
    Except.error FEError.accessToUninitField
  else Except.ok (s.JxW_values.getD i 0)

/-- The conditional call of `fe.fill_fe_face_values` in
`FEFaceValues::reinit` (lines 330-348): if any of `update_jacobians`,
`update_q_points`, `update_ansatz_points`, `update_JxW_values` is
requested, the Geometry Mapper overwrites the individually requested
arrays for face `face_no` (each array exactly when its own flag is set;
`face_jacobi_determinants` under `update_JxW_values` and
`normal_vectors` under `update_normal_vectors`, as in the call's
arguments). -/
def fill_fe_face_values (m : FaceMapper) (face_no : ℕ) (s : FEFaceValuesState) :
    FEFaceValuesState :=
  if s.update_flags.update_jacobians = true ∨ s.update_flags.update_q_points = true ∨
      s.update_flags.update_ansatz_points = true ∨
      s.update_flags.update_JxW_values = true then
    { s with
      jacobi_matrices :=
        if s.update_flags.update_jacobians = true then
          (List.range s.n_quadrature_points).map (m.jacobi face_no)
        else s.jacobi_matrices
      ansatz_points :=
        if s.update_flags.update_ansatz_points = true then
          (List.range s.total_dofs).map (m.ansatz face_no)
        else s.ansatz_points
      quadrature_points :=
        if s.update_flags.update_q_points = true then
          (List.range s.n_quadrature_points).map (m.qpoint face_no)
        else s.quadrature_points
      face_jacobi_determinants :=
        if s.update_flags.update_JxW_values = true then
          (List.range s.n_quadrature_points).map (m.face_det face_no)
        else s.face_jacobi_determinants
      normal_vectors :=
        if s.update_flags.update_normal_vectors = true then
          (List.range s.n_quadrature_points).map (m.normal face_no)
        else s.normal_vectors }
  else s

/-- The state computed by `FEFaceValues<dim>::reinit` (lines 322-384)
when no assert fires.  First `selected_face = face_no` (line 327,
unconditional, no bounds check on `face_no`), then the conditional
fill, then the gradients block (lines 352-370) which reads the
reference gradients from `unit_shape_gradients[face_no]`, then the JxW
block (lines 378-383) which sets
`JxW_values[i] = weights[i] * face_jacobi_determinants[i]` -- a
product, unlike the cell case.  As in `cellReinit`, the immutable
members `update_flags`, `n_quadrature_points`, `dim`, `weights` and
`unit_shape_gradients` are read from `s`. -/
def faceRun (fe : FiniteElement) (m : FaceMapper) (face_no : ℕ)
    (s : FEFaceValuesState) : FEFaceValuesState :=
  let s1 := fill_fe_face_values m face_no { s with selected_face := face_no }
  let s2 :=
    if s.update_flags.update_gradients = true then
      { s1 with shape_gradients := gradTable fe.total_dofs
                    s.n_quadrature_points s.dim
                    (s.unit_shape_gradients.getD face_no [])
                    s1.jacobi_matrices }
    else s1
  if s.update_flags.update_JxW_values = true then
    { s2 with JxW_values := faceJxWTable s.n_quadrature_points
                s.weights s1.face_jacobi_determinants }
  else s2

/-- `FEFaceValues<dim>::reinit` (lines 322-384), split into its asserts
(the gradients block and the JxW block each assert `update_jacobians`,
lines 354 and 380) and its state update `faceRun`. -/
def faceReinit (fe : FiniteElement) (m : FaceMapper) (face_no : ℕ)
    (s : FEFaceValuesState) : Except FEError FEFaceValuesState :=
  if s.update_flags.update_gradients = true ∧
      ¬ s.update_flags.update_jacobians = true then
    Except.error FEError.cannotInitField
  else if s.update_flags.update_JxW_values = true ∧
      ¬ s.update_flags.update_jacobians = true then
    Except.error FEError.cannotInitField
  else Except.ok (faceRun fe m face_no s)

/-- The value of an `Except` when it is `ok`, a fallback otherwise. -/
def okOr {ε α : Type} (e : Except ε α) (d : α) : α :=
  match e with
  | Except.ok t => t
  | Except.error _ => d

/-- A concrete 2-D finite element with two basis functions (a bilinear
hat `1 - x` and the mixed monomial `x*y`), used as a test fixture. -/
def exFe : FiniteElement :=
  { dim := 2
    total_dofs := 2
    shape_value := fun i p => if i = 0 then 1 - p.getD 0 0 else p.getD 0 0 * p.getD 1 0
    shape_grad := fun i p => if i = 0 then [-1, 0] else [p.getD 1 0, p.getD 0 0] }

/-- A 3-D finite element, used to exercise the unimplemented-dimension
branch of the face-evaluator constructor. -/
def exFe3 : FiniteElement :=
  { dim := 3, total_dofs := 1
    shape_value := fun _ _ => 1, shape_grad := fun _ _ => [0, 0, 0] }

/-- A one-point cell quadrature rule at the cell midpoint. -/
def exQ : Quadrature :=
  { n_quadrature_points := 1, quad_point := fun _ => [1/2, 1/2], weight := fun _ => 1 }

/-- A one-point face quadrature rule at face coordinate `1/2`. -/
def exQf : Quadrature :=
  { n_quadrature_points := 1, quad_point := fun _ => [1/2], weight := fun _ => 3 }

/-- Every tag requested. -/
def allFlags : UpdateFlags := ⟨true, true, true, true, true, true, true⟩

/-- No tag requested. -/
def noFlags : UpdateFlags := ⟨false, false, false, false, false, false, false⟩

/-- `update_gradients` without its prerequisite `update_jacobians`. -/
def gradNoJacFlags : UpdateFlags := ⟨false, true, false, false, false, false, false⟩

/-- A cell Geometry Mapper whose Jacobi matrix is constantly
`[[1/2, 0], [0, 1/2]]`, of determinant `1/4` (the uniformly-by-2 scaled
cell of the spec's concrete scenario). -/
def exCellMap : CellMapper :=
  { jacobi := fun _ => [[1/2, 0], [0, 1/2]]
    ansatz := fun i => [(i : ℚ), 0]
    qpoint := fun _ => [1, 2] }

/-- A face Geometry Mapper with face-dependent data. -/
def exFaceMap : FaceMapper :=
  { jacobi := fun _ _ => [[1, 0], [0, 1]]
    ansatz := fun _ i => [(i : ℚ), 1]
    qpoint := fun f _ => [(f : ℚ), 0]
    face_det := fun f j => (f : ℚ) + j + 2
    normal := fun _ _ => [0, 1] }

/-- The cell evaluator built from the fixtures, all tags requested. -/
def exCell : FEValuesState := FEValues.construct exFe exQ allFlags

/-- The cell evaluator after one `reinit` with `exCellMap`. -/
def exCellR : FEValuesState := okOr (cellReinit exFe exCellMap exCell) exCell

/-- A throw-away face-evaluator state (fallback for `match` defaults). -/
def junkFace : FEFaceValuesState :=
  { dim := 0, n_quadrature_points := 0, total_dofs := 0, shape_values := []
    shape_gradients := [], unit_shape_gradients := [], weights := []
    JxW_values := [], quadrature_points := [], unit_quadrature_points := []
    global_unit_quadrature_points := [], ansatz_points := [], jacobi_matrices := []
    face_jacobi_determinants := [], normal_vectors := [], update_flags := noFlags
    selected_face := 0 }

/-- The face evaluator built from the fixtures, all tags requested. -/
def exFace : FEFaceValuesState :=
  okOr (FEFaceValues.construct exFe exQf allFlags) junkFace

/-- The face evaluator after `reinit` for face 1. -/
def exFaceR1 : FEFaceValuesState := okOr (faceReinit exFe exFaceMap 1 exFace) junkFace

/-- The face evaluator after `reinit` for face 1, then face 2. -/
def exFaceR2 : FEFaceValuesState := okOr (faceReinit exFe exFaceMap 2 exFaceR1) junkFace

/-! Helper lemmas about list tables and conditionals. -/

theorem getD_range_map {α : Type} {f : ℕ → α} {n j : ℕ} (h : j < n) {d : α} :
    ((List.range n).map f).getD j d = f j := by
  rw [List.getD_eq_getElem?_getD, List.getElem?_map, List.getElem?_range h]
  rfl

theorem ite_absorb {α : Type} {c : Prop} [Decidable c] (x y z : α) :
    (if c then x else if c then y else z) = if c then x else z := by
  by_cases h : c <;> simp [h]

/-- `fill_fe_values` in canonical form: each per-cell array is
overwritten exactly when its own flag is set (for the cell evaluator
the outer condition of the fill is implied by any of the three inner
flags). -/
theorem fill_cell_eq (m : CellMapper) (s : FEValuesState) :
    fill_fe_values m s =
      { s with
        jacobi_matrices :=
          if s.update_flags.update_jacobians = true then
            (List.range s.n_quadrature_points).map m.jacobi
          else s.jacobi_matrices
        ansatz_points :=
          if s.update_flags.update_ansatz_points = true then
            (List.range s.total_dofs).map m.ansatz
          else s.ansatz_points
        quadrature_points :=
          if s.update_flags.update_q_points = true then
            (List.range s.n_quadrature_points).map m.qpoint
          else s.quadrature_points } := by
  unfold fill_fe_values
  by_cases h1 : s.update_flags.update_jacobians = true <;>
    by_cases h2 : s.update_flags.update_q_points = true <;>
      by_cases h3 : s.update_flags.update_ansatz_points = true <;>
        simp [h1, h2, h3]

/-- `fill_fe_face_values` in canonical form.  `normal_vectors` is
special: it is overwritten only when `update_normal_vectors` is set AND
the fill runs at all, i.e. some flag of its outer condition is set. -/
theorem fill_face_eq (m : FaceMapper) (f : ℕ) (s : FEFaceValuesState) :
    fill_fe_face_values m f s =
      { s with
        jacobi_matrices :=
          if s.update_flags.update_jacobians = true then
            (List.range s.n_quadrature_points).map (m.jacobi f)
          else s.jacobi_matrices
        ansatz_points :=
          if s.update_flags.update_ansatz_points = true then
            (List.range s.total_dofs).map (m.ansatz f)
          else s.ansatz_points
        quadrature_points :=
          if s.update_flags.update_q_points = true then
            (List.range s.n_quadrature_points).map (m.qpoint f)
          else s.quadrature_points
        face_jacobi_determinants :=
          if s.update_flags.update_JxW_values = true then
            (List.range s.n_quadrature_points).map (m.face_det f)
          else s.face_jacobi_determinants
        normal_vectors :=
          if (s.update_flags.update_jacobians = true ∨
                s.update_flags.update_q_points = true ∨
                s.update_flags.update_ansatz_points = true ∨
                s.update_flags.update_JxW_values = true) ∧
              s.update_flags.update_normal_vectors = true then
            (List.range s.n_quadrature_points).map (m.normal f)
          else s.normal_vectors } := by
  unfold fill_fe_face_values
  by_cases h1 : s.update_flags.update_jacobians = true <;>
    by_cases h2 : s.update_flags.update_q_points = true <;>
      by_cases h3 : s.update_flags.update_ansatz_points = true <;>
        by_cases h4 : s.update_flags.update_JxW_values = true <;>
          by_cases h5 : s.update_flags.update_normal_vectors = true <;>
            simp [h1, h2, h3, h4, h5]

/-- `cellRun` in canonical form: every mutable field of the state
after `FEValues::reinit` is a function of the immutable
construction-time data, the Geometry Mapper, and the previous value of
the fields whose flags are unset. -/
theorem cellRun_eq (fe : FiniteElement) (m : CellMapper) (s : FEValuesState) :
    cellRun fe m s =
      { s with
        jacobi_matrices :=
          if s.update_flags.update_jacobians = true then
            (List.range s.n_quadrature_points).map m.jacobi
          else s.jacobi_matrices
        ansatz_points :=
          if s.update_flags.update_ansatz_points = true then
            (List.range s.total_dofs).map m.ansatz
          else s.ansatz_points
        quadrature_points :=
          if s.update_flags.update_q_points = true then
            (List.range s.n_quadrature_points).map m.qpoint
          else s.quadrature_points
        shape_gradients :=
          if s.update_flags.update_gradients = true then
            gradTable fe.total_dofs s.n_quadrature_points s.dim
              s.unit_shape_gradients
              (if s.update_flags.update_jacobians = true then
                (List.range s.n_quadrature_points).map m.jacobi
              else s.jacobi_matrices)
          else s.shape_gradients
        JxW_values :=
          if s.update_flags.update_JxW_values = true then
            cellJxWTable s.n_quadrature_points s.dim s.weights
              (if s.update_flags.update_jacobians = true then
                (List.range s.n_quadrature_points).map m.jacobi
              else s.jacobi_matrices)
          else s.JxW_values } := by
  unfold cellRun
  rw [fill_cell_eq]
  by_cases h1 : s.update_flags.update_gradients = true <;>
    by_cases h2 : s.update_flags.update_JxW_values = true <;>
      simp [h1, h2]

/-- `faceRun` in canonical form. -/
theorem faceRun_eq (fe : FiniteElement) (m : FaceMapper) (f : ℕ)
    (s : FEFaceValuesState) :
    faceRun fe m f s =
      { s with
        selected_face := f
        jacobi_matrices :=
          if s.update_flags.update_jacobians = true then
            (List.range s.n_quadrature_points).map (m.jacobi f)
          else s.jacobi_matrices
        ansatz_points :=
          if s.update_flags.update_ansatz_points = true then
            (List.range s.total_dofs).map (m.ansatz f)
          else s.ansatz_points
        quadrature_points :=
          if s.update_flags.update_q_points = true then
            (List.range s.n_quadrature_points).map (m.qpoint f)
          else s.quadrature_points
        face_jacobi_determinants :=
          if s.update_flags.update_JxW_values = true then
            (List.range s.n_quadrature_points).map (m.face_det f)
          else s.face_jacobi_determinants
        normal_vectors :=
          if (s.update_flags.update_jacobians = true ∨
                s.update_flags.update_q_points = true ∨
                s.update_flags.update_ansatz_points = true ∨
                s.update_flags.update_JxW_values = true) ∧
              s.update_flags.update_normal_vectors = true then
            (List.range s.n_quadrature_points).map (m.normal f)
          else s.normal_vectors
        shape_gradients :=
          if s.update_flags.update_gradients = true then
            gradTable fe.total_dofs s.n_quadrature_points s.dim
              (s.unit_shape_gradients.getD f [])
              (if s.update_flags.update_jacobians = true then
                (List.range s.n_quadrature_points).map (m.jacobi f)
              else s.jacobi_matrices)
          else s.shape_gradients
        JxW_values :=
          if s.update_flags.update_JxW_values = true then
            faceJxWTable s.n_quadrature_points s.weights
              ((List.range s.n_quadrature_points).map (m.face_det f))
          else s.JxW_values } := by
  unfold faceRun
  rw [fill_face_eq]
  by_cases h1 : s.update_flags.update_gradients = true <;>
    by_cases h2 : s.update_flags.update_JxW_values = true <;>
      simp [h1, h2]

/-- Inversion for `cellReinit`: if `reinit` on a cell evaluator
succeeds then both dependency asserts hold and the result is
`cellRun`. -/
theorem cellReinit_ok_elim (fe : FiniteElement) (m : CellMapper)
    (s s' : FEValuesState) (h : cellReinit fe m s = Except.ok s') :
    s' = cellRun fe m s ∧
      (s.update_flags.update_gradients = true →
        s.update_flags.update_jacobians = true) ∧
      (s.update_flags.update_JxW_values = true →
        s.update_flags.update_jacobians = true) := by
  simp only [cellReinit] at h
  split at h
  · cases h
  · next hc1 =>
    split at h
    · cases h
    · next hc2 =>
      split at h
      · cases h
      · next hc3 =>
        injection h with h
        push_neg at hc1 hc2
        exact ⟨h.symm, hc1, hc2⟩

/-- `cellReinit` succeeds when the dependency asserts hold and all used
Jacobi determinants are nonzero, and then computes `cellRun`. -/
theorem cellReinit_ok_intro (fe : FiniteElement) (m : CellMapper) (s : FEValuesState)
    (h1 : s.update_flags.update_gradients = true →
      s.update_flags.update_jacobians = true)
    (h2 : s.update_flags.update_JxW_values = true →
      s.update_flags.update_jacobians = true)
    (h3 : s.update_flags.update_JxW_values = true →
      ∀ j ∈ Finset.range s.n_quadrature_points,
        determinant s.dim ((fill_fe_values m s).jacobi_matrices.getD j []) ≠ 0) :
    cellReinit fe m s = Except.ok (cellRun fe m s) := by
  simp only [cellReinit]
  rw [if_neg fun hc => hc.2 (h1 hc.1), if_neg fun hc => hc.2 (h2 hc.1),
    if_neg fun hc => hc.2 (h3 hc.1)]

/-- Inversion for `faceReinit`: if `reinit` on a face evaluator
succeeds then both dependency asserts hold and the result is
`faceRun`. -/
theorem faceReinit_ok_elim (fe : FiniteElement) (m : FaceMapper) (f : ℕ)
    (s s' : FEFaceValuesState) (h : faceReinit fe m f s = Except.ok s') :
    s' = faceRun fe m f s ∧
      (s.update_flags.update_gradients = true →
        s.update_flags.update_jacobians = true) ∧
      (s.update_flags.update_JxW_values = true →
        s.update_flags.update_jacobians = true) := by
  simp only [faceReinit] at h
  split at h
  · cases h
  · next hc1 =>
    split at h
    · cases h
    · next hc2 =>
      injection h with h
      push_neg at hc1 hc2
      exact ⟨h.symm, hc1, hc2⟩

/-- `faceReinit` succeeds when the dependency asserts hold, and then
computes `faceRun`. -/
theorem faceReinit_ok_intro (fe : FiniteElement) (m : FaceMapper) (f : ℕ)
    (s : FEFaceValuesState)
    (h1 : s.update_flags.update_gradients = true →
      s.update_flags.update_jacobians = true)
    (h2 : s.update_flags.update_JxW_values = true →
      s.update_flags.update_jacobians = true) :
    faceReinit fe m f s = Except.ok (faceRun fe m f s) := by
  simp only [faceReinit]
  rw [if_neg fun hc => hc.2 (h1 hc.1), if_neg fun hc => hc.2 (h2 hc.1)]

/-- Inversion for the face-evaluator constructor: on success the state
is as built, in particular `selected_face = 0` and one table per face
(`2*dim` of them). -/
theorem faceConstruct_ok_elim (fe : FiniteElement) (q : Quadrature)
    (flags : UpdateFlags) (st : FEFaceValuesState)
    (h : FEFaceValues.construct fe q flags = Except.ok st) :
    st.selected_face = 0 ∧ st.dim = fe.dim ∧ st.update_flags = flags ∧
      st.total_dofs = fe.total_dofs ∧
      st.n_quadrature_points = q.n_quadrature_points ∧
      st.shape_values.length = 2 * fe.dim ∧
      st.unit_shape_gradients.length = 2 * fe.dim ∧
      st.global_unit_quadrature_points.length = 2 * fe.dim := by
  simp only [FEFaceValues.construct] at h
  split at h
  · cases h
  · injection h with h
    subst h
    simp

/-- Entry `(i,j,c)` of a `gradTable`, inside the loop bounds. -/
theorem ent3_gradTable (total n dim : ℕ) (usg jm : List (List (List ℚ)))
    (i j c : ℕ) (hi : i < total) (hj : j < n) (hc : c < dim) :
    ent3 (gradTable total n dim usg jm) i j c =
      ∑ b ∈ Finset.range dim, ent3 usg i j b * ent3 jm j b c := by
  unfold gradTable ent3
  rw [getD_range_map hi, getD_range_map hj, getD_range_map hc]

/-- Entry `j` of a `cellJxWTable`, inside the loop bounds. -/
theorem getD_cellJxWTable (n dim : ℕ) (w : List ℚ) (jm : List (List (List ℚ)))
    (j : ℕ) (hj : j < n) :
    (cellJxWTable n dim w jm).getD j 0 =
      w.getD j 0 / determinant dim (jm.getD j []) := by
  unfold cellJxWTable
  rw [getD_range_map hj]

/-- Entry `j` of a `faceJxWTable`, inside the loop bounds. -/
theorem getD_faceJxWTable (n : ℕ) (w fd : List ℚ) (j : ℕ) (hj : j < n) :
    (faceJxWTable n w fd).getD j 0 = w.getD j 0 * fd.getD j 0 := by
  unfold faceJxWTable
  rw [getD_range_map hj]

/-- C9 helper: `faceRun` never changes `update_flags`. -/
theorem faceRun_update_flags (fe : FiniteElement) (m : FaceMapper) (f : ℕ)
    (s : FEFaceValuesState) : (faceRun fe m f s).update_flags = s.update_flags := by
  rw [faceRun_eq]

/-- The key determinism property behind face re-selection: the state
after `faceRun` depends only on the construction-time data, the
Geometry Mapper, and the face number -- running any other `faceRun`
first changes nothing. -/
theorem faceRun_comp (fe : FiniteElement) (m : FaceMapper) (f g : ℕ)
    (s : FEFaceValuesState) :
    faceRun fe m f (faceRun fe m g s) = faceRun fe m f s := by
  simp only [faceRun_eq]
  simp [ite_absorb]

/-- C9: the cell evaluator's JxW computation divides each quadrature
weight by the Jacobi determinant with no guard in the source; under the
precondition that the determinant supplied by the Geometry Mapper is
nonzero at every quadrature index, `reinit` succeeds -- in particular
the guarded-division error branch (`FEError.divisionByZero`) of the
embedding is not taken. -/
theorem C9_nonzero_det_no_div_error (fe : FiniteElement) (m : CellMapper)
    (s : FEValuesState)
    (hjac : s.update_flags.update_jacobians = true)
    (hdet : ∀ j, j < s.n_quadrature_points → determinant s.dim (m.jacobi j) ≠ 0) :
    cellReinit fe m s = Except.ok (cellRun fe m s) := by
  refine cellReinit_ok_intro fe m s (fun _ => hjac) (fun _ => hjac) ?_
  intro _ j hj
  rw [Finset.mem_range] at hj
  rw [fill_cell_eq]
  simp only [hjac, if_true]
  rw [getD_range_map hj]
  exact hdet j hj

/-- C9 witness: at the concrete fixtures (constant Jacobi determinant
`1/4 ≠ 0`) `reinit` succeeds. -/
theorem C9_nonzero_det_no_div_error_witness :
    exCell.update_flags.update_jacobians = true ∧
    cellReinit exFe exCellMap exCell = Except.ok (cellRun exFe exCellMap exCell) :=
  ⟨rfl, C9_nonzero_det_no_div_error exFe exCellMap exCell rfl (by
    intro j hj
    have hj1 : j < 1 := hj
    have hj0 : j = 0 := by omega
    subst hj0
    norm_num [determinant, exCellMap, ent, exCell, FEValues.construct, exQ, exFe])⟩

/-- C10: after construction the face evaluator's `selected_face` is `0`
(so accessors read face 0's table before any `reinit`), the per-face
arrays have exactly `2*dim` entries, and `reinit` stores `face_no` into
`selected_face` unconditionally (no bounds check); under the
precondition `face_no < 2*dim` the invariant `selected_face < 2*dim` is
preserved, and since `reinit` never changes the per-face arrays, the
index used for every per-face access stays below their length. -/
theorem C10_selected_face_invariant :
    (∀ (fe : FiniteElement) (q : Quadrature) (flags : UpdateFlags)
       (st : FEFaceValuesState),
       FEFaceValues.construct fe q flags = Except.ok st →
         st.selected_face = 0 ∧
         st.shape_values.length = 2 * st.dim ∧
         st.unit_shape_gradients.length = 2 * st.dim ∧
         st.global_unit_quadrature_points.length = 2 * st.dim ∧
         (0 < st.dim → st.selected_face < 2 * st.dim)) ∧
    (∀ (fe : FiniteElement) (m : FaceMapper) (f : ℕ) (s t : FEFaceValuesState),
       faceReinit fe m f s = Except.ok t →
         t.selected_face = f ∧
         t.dim = s.dim ∧
         t.shape_values = s.shape_values ∧
         t.unit_shape_gradients = s.unit_shape_gradients ∧
         t.global_unit_quadrature_points = s.global_unit_quadrature_points ∧
         (f < 2 * s.dim → t.selected_face < 2 * t.dim)) := by
  constructor
  · intro fe q flags st h
    obtain ⟨h0, hdim, -, -, -, hsv, husg, hgu⟩ := faceConstruct_ok_elim fe q flags st h
    rw [h0, hdim, hsv, husg, hgu]
    exact ⟨rfl, rfl, rfl, rfl, fun hd => by omega⟩
  · intro fe m f s t h
    obtain ⟨ht, -, -⟩ := faceReinit_ok_elim fe m f s t h
    subst ht
    rw [faceRun_eq]
    exact ⟨rfl, rfl, rfl, rfl, rfl, fun hf => hf⟩

/-- C10 witness: the invariant at the concrete fixtures (`dim = 2`,
faces `0` and `1`). -/
theorem C10_selected_face_invariant_witness :
    (FEFaceValues.construct exFe exQf allFlags = Except.ok exFace ∧
      exFace.selected_face = 0 ∧ (0 < exFace.dim → exFace.selected_face < 2 * exFace.dim)) ∧
    (faceReinit exFe exFaceMap 1 exFace = Except.ok exFaceR1 ∧
      exFaceR1.selected_face = 1 ∧
      (1 < 2 * exFace.dim → exFaceR1.selected_face < 2 * exFaceR1.dim)) := by
  have h1 := C10_selected_face_invariant.1 exFe exQf allFlags exFace rfl
  have h2 := C10_selected_face_invariant.2 exFe exFaceMap 1 exFace exFaceR1 rfl
  exact ⟨⟨rfl, h1.1, h1.2.2.2.2⟩, ⟨rfl, h2.1, h2.2.2.2.2.2⟩⟩

/-- C2: after a successful cell `reinit` with the JxW tag requested,
`JxW_values[j] = weights[j] / det(jacobi_matrices[j])` for every
quadrature index -- a division, not a multiplication; in particular
with a constant determinant `1/4` every `JxW(j)` is `weight[j] * 4`. -/
theorem C2_cell_JxW_reciprocal (fe : FiniteElement) (m : CellMapper)
    (s s' : FEValuesState) (h : cellReinit fe m s = Except.ok s')
    (hJ : s.update_flags.update_JxW_values = true) :
    (∀ j, j < s'.n_quadrature_points →
      s'.JxW_values.getD j 0 =
        s'.weights.getD j 0 / determinant s'.dim (s'.jacobi_matrices.getD j [])) ∧
    ((∀ j, j < s'.n_quadrature_points →
        determinant s'.dim (s'.jacobi_matrices.getD j []) = 1/4) →
      ∀ j, j < s'.n_quadrature_points →
        s'.JxW_values.getD j 0 = s'.weights.getD j 0 * 4) := by
  obtain ⟨hs', -, hJj⟩ := cellReinit_ok_elim fe m s s' h
  have hjac := hJj hJ
  subst hs'
  rw [cellRun_eq]
  simp only [hJ, hjac, if_true]
  constructor
  · intro j hj
    rw [getD_cellJxWTable _ _ _ _ j hj]
  · intro hdet j hj
    rw [getD_cellJxWTable _ _ _ _ j hj, hdet j hj, div_eq_mul_inv]
    norm_num

/-- C2 witness: at the fixtures the determinant is constantly `1/4`,
and the division and product forms are verified at the only quadrature
index. -/
theorem C2_cell_JxW_reciprocal_witness :
    cellReinit exFe exCellMap exCell = Except.ok exCellR ∧
    exCellR.JxW_values.getD 0 0 =
      exCellR.weights.getD 0 0 /
        determinant exCellR.dim (exCellR.jacobi_matrices.getD 0 []) ∧
    exCellR.JxW_values.getD 0 0 = exCellR.weights.getD 0 0 * 4 := by
  have hok : cellReinit exFe exCellMap exCell = Except.ok exCellR := by
    unfold exCellR okOr
    rw [C9_nonzero_det_no_div_error exFe exCellMap exCell rfl (by
      intro j hj
      have hj1 : j < 1 := hj
      have hj0 : j = 0 := by omega
      subst hj0
      norm_num [determinant, exCellMap, ent, exCell, FEValues.construct, exQ, exFe])]
  have hdet : ∀ j, j < exCellR.n_quadrature_points →
      determinant exCellR.dim (exCellR.jacobi_matrices.getD j []) = 1/4 := by
    intro j hj
    have h1 := (cellReinit_ok_elim exFe exCellMap exCell exCellR hok).1
    rw [h1, cellRun_eq]
    have hj1 : j < 1 := by
      have := hj
      rw [h1, cellRun_eq] at this
      exact this
    have hj0 : j = 0 := by omega
    subst hj0
    norm_num [determinant, exCellMap, ent, exCell, FEValues.construct, exQ, exFe,
      allFlags]
  have hmain := C2_cell_JxW_reciprocal exFe exCellMap exCell exCellR hok rfl
  have hn : (0 : ℕ) < exCellR.n_quadrature_points := by
    rw [(cellReinit_ok_elim exFe exCellMap exCell exCellR hok).1, cellRun_eq]
    norm_num [exCell, FEValues.construct, exQ]
  exact ⟨hok, hmain.1 0 hn, hmain.2 hdet 0 hn⟩

/-- C3: after a successful face `reinit` with the JxW tag requested,
`JxW_values[j] = weights[j] * face_jacobi_determinants[j]` for every
quadrature index -- a product with the face-Jacobi determinant supplied
by the Geometry Mapper (`face_jacobi_determinants[j] = m.face_det f j`),
not a reciprocal as in the cell case. -/
theorem C3_face_JxW_product (fe : FiniteElement) (m : FaceMapper) (f : ℕ)
    (s s' : FEFaceValuesState) (h : faceReinit fe m f s = Except.ok s')
    (hJ : s.update_flags.update_JxW_values = true) :
    ∀ j, j < s'.n_quadrature_points →
      s'.JxW_values.getD j 0 =
        s'.weights.getD j 0 * s'.face_jacobi_determinants.getD j 0 ∧
      s'.face_jacobi_determinants.getD j 0 = m.face_det f j := by
  obtain ⟨hs', -, -⟩ := faceReinit_ok_elim fe m f s s' h
  subst hs'
  rw [faceRun_eq]
  simp only [hJ, if_true]
  intro j hj
  constructor
  · rw [getD_faceJxWTable _ _ _ j hj, getD_range_map hj]
  · rw [getD_range_map hj]

/-- C3 witness: the product form at the fixtures (face 1, weight `3`,
face-Jacobi determinant `1 + 0 + 2 = 3`). -/
theorem C3_face_JxW_product_witness :
    faceReinit exFe exFaceMap 1 exFace = Except.ok exFaceR1 ∧
    exFace.update_flags.update_JxW_values = true ∧
    (exFaceR1.JxW_values.getD 0 0 =
        exFaceR1.weights.getD 0 0 * exFaceR1.face_jacobi_determinants.getD 0 0 ∧
      exFaceR1.face_jacobi_determinants.getD 0 0 = exFaceMap.face_det 1 0) :=
  ⟨rfl, rfl, C3_face_JxW_product exFe exFaceMap 1 exFace exFaceR1 rfl rfl 0 (by
    have : exFaceR1.n_quadrature_points = 1 := rfl
    omega)⟩

/-- C1: after a successful `reinit` with the gradients tag requested,
every in-range physical gradient component is the chain-rule sum
`shape_gradients[i][j](c) = sum_b unit_shape_gradients[i][j](b) *
jacobi_matrices[j](b,c)`; the face evaluator computes the same sum but
reads the reference gradients from the table of the face `f` passed to
`reinit` (and visible as `selected_face` afterwards). -/
theorem C1_gradient_transform :
    (∀ (fe : FiniteElement) (m : CellMapper) (s s' : FEValuesState),
       cellReinit fe m s = Except.ok s' →
       s.update_flags.update_gradients = true →
       ∀ i j c, i < fe.total_dofs → j < s'.n_quadrature_points → c < s'.dim →
         ent3 s'.shape_gradients i j c =
           ∑ b ∈ Finset.range s'.dim,
             ent3 s'.unit_shape_gradients i j b * ent3 s'.jacobi_matrices j b c) ∧
    (∀ (fe : FiniteElement) (m : FaceMapper) (f : ℕ) (s s' : FEFaceValuesState),
       faceReinit fe m f s = Except.ok s' →
       s.update_flags.update_gradients = true →
       ∀ i j c, i < fe.total_dofs → j < s'.n_quadrature_points → c < s'.dim →
         ent3 s'.shape_gradients i j c =
           ∑ b ∈ Finset.range s'.dim,
             ent4 s'.unit_shape_gradients f i j b * ent3 s'.jacobi_matrices j b c) := by
  constructor
  · intro fe m s s' h hg i j c hi hj hc
    obtain ⟨hs', hgj, -⟩ := cellReinit_ok_elim fe m s s' h
    have hjac := hgj hg
    subst hs'
    rw [cellRun_eq] at hj hc ⊢
    simp only [hg, hjac, if_true] at hj hc ⊢
    rw [ent3_gradTable fe.total_dofs s.n_quadrature_points s.dim _ _ i j c hi hj hc]
  · intro fe m f s s' h hg i j c hi hj hc
    obtain ⟨hs', hgj, -⟩ := faceReinit_ok_elim fe m f s s' h
    have hjac := hgj hg
    subst hs'
    rw [faceRun_eq] at hj hc ⊢
    simp only [hg, hjac, if_true] at hj hc ⊢
    rw [ent3_gradTable fe.total_dofs s.n_quadrature_points s.dim _ _ i j c hi hj hc]
    rfl

/-- Auxiliary: the concrete cell reinit is accepted by the guard. -/
theorem exCell_reinit_run : cellReinit exFe exCellMap exCell =
    Except.ok (cellRun exFe exCellMap exCell) := by
  refine cellReinit_ok_intro exFe exCellMap exCell (fun _ => rfl) (fun _ => rfl) ?_
  intro _ j hj
  rw [Finset.mem_range] at hj
  rw [fill_cell_eq]
  have hj1 : j < 1 := hj
  have hj0 : j = 0 := by omega
  subst hj0
  norm_num [determinant, exCellMap, ent, exCell, FEValues.construct, exQ, exFe,
    allFlags]

/-- The concrete cell `reinit` succeeds with result `exCellR`. -/
theorem exCellR_ok : cellReinit exFe exCellMap exCell = Except.ok exCellR := by
  unfold exCellR okOr
  rw [exCell_reinit_run]

/-- The concrete post-`reinit` cell state in run form. -/
theorem exCellR_eq_run : exCellR = cellRun exFe exCellMap exCell :=
  (cellReinit_ok_elim exFe exCellMap exCell exCellR exCellR_ok).1

/-- Concrete bounds of the post-`reinit` cell state. -/
theorem exCellR_bounds : exCellR.n_quadrature_points = 1 ∧ exCellR.dim = 2 := by
  rw [exCellR_eq_run, cellRun_eq]
  exact ⟨rfl, rfl⟩

/-- C1 witness: the chain-rule sum at the fixtures, basis index 0,
quadrature index 0, component 0, for the cell evaluator and for face 1
of the face evaluator. -/
theorem C1_gradient_transform_witness :
    (cellReinit exFe exCellMap exCell = Except.ok exCellR ∧
      ent3 exCellR.shape_gradients 0 0 0 =
        ∑ b ∈ Finset.range exCellR.dim,
          ent3 exCellR.unit_shape_gradients 0 0 b *
            ent3 exCellR.jacobi_matrices 0 b 0) ∧
    (faceReinit exFe exFaceMap 1 exFace = Except.ok exFaceR1 ∧
      ent3 exFaceR1.shape_gradients 0 0 0 =
        ∑ b ∈ Finset.range exFaceR1.dim,
          ent4 exFaceR1.unit_shape_gradients 1 0 0 b *
            ent3 exFaceR1.jacobi_matrices 0 b 0) :=
  ⟨⟨exCellR_ok,
    C1_gradient_transform.1 exFe exCellMap exCell exCellR exCellR_ok rfl 0 0 0
      (by norm_num [exFe]) (by rw [exCellR_bounds.1]; norm_num)
      (by rw [exCellR_bounds.2]; norm_num)⟩,
   ⟨rfl,
    C1_gradient_transform.2 exFe exFaceMap 1 exFace exFaceR1 rfl rfl 0 0 0
      (by norm_num [exFe]) (by decide) (by decide)⟩⟩

/-- In-bounds form of the `shape_value` accessor of the cell
evaluator. -/
theorem shape_value_in_bounds (s : FEValuesState) (i j : ℕ)
    (hi : i < s.total_dofs) (hj : j < s.n_quadrature_points) :
    s.shape_value i j = Except.ok (ent s.shape_values i j) := by
  unfold FEValuesState.shape_value
  rw [if_neg (by omega), if_neg (by omega)]

/-- The `shape_values` table built by the cell constructor holds the
Finite-Element Descriptor's value at the quadrature point. -/
theorem ent_construct_shape_values (fe : FiniteElement) (q : Quadrature)
    (flags : UpdateFlags) (i j : ℕ)
    (hi : i < fe.total_dofs) (hj : j < q.n_quadrature_points) :
    ent (FEValues.construct fe q flags).shape_values i j =
      fe.shape_value i (q.quad_point j) := by
  unfold FEValues.construct ent
  rw [getD_range_map hi, getD_range_map hj]

/-- A sequence of successful cell `reinit` calls never writes the
`shape_values` table, nor the bounds that guard its accessor. -/
theorem cellReinits_preserve (steps : List (FiniteElement × CellMapper))
    (s s' : FEValuesState) (h : cellReinits steps s = Except.ok s') :
    s'.total_dofs = s.total_dofs ∧ s'.n_quadrature_points = s.n_quadrature_points ∧
      s'.shape_values = s.shape_values := by
  induction steps generalizing s with
  | nil =>
    unfold cellReinits at h
    injection h with h
    subst h
    exact ⟨rfl, rfl, rfl⟩
  | cons p rest ih =>
    unfold cellReinits at h
    cases hh : cellReinit p.1 p.2 s with
    | error e => rw [hh] at h; cases h
    | ok t =>
      rw [hh] at h
      obtain ⟨h1, h2, h3⟩ := ih t h
      have ht := (cellReinit_ok_elim p.1 p.2 s t hh).1
      subst ht
      rw [cellRun_eq] at h1 h2 h3
      exact ⟨h1, h2, h3⟩

/-- C4: immediately after construction (before any `reinit`),
`shape_value(i,j)` returns exactly the Finite-Element Descriptor's
value at the j-th reference quadrature point, and the same value is
returned after any sequence of successful `reinit` calls -- `reinit`
never writes the shape-value table. -/
theorem C4_shape_value_stable (fe : FiniteElement) (q : Quadrature)
    (flags : UpdateFlags) (i j : ℕ)
    (hi : i < fe.total_dofs) (hj : j < q.n_quadrature_points) :
    (FEValues.construct fe q flags).shape_value i j =
      Except.ok (fe.shape_value i (q.quad_point j)) ∧
    ∀ (steps : List (FiniteElement × CellMapper)) (s' : FEValuesState),
      cellReinits steps (FEValues.construct fe q flags) = Except.ok s' →
      s'.shape_value i j = Except.ok (fe.shape_value i (q.quad_point j)) := by
  have hbase : (FEValues.construct fe q flags).shape_value i j =
      Except.ok (fe.shape_value i (q.quad_point j)) := by
    rw [shape_value_in_bounds _ i j hi hj, ent_construct_shape_values fe q flags i j hi hj]
  refine ⟨hbase, ?_⟩
  intro steps s' h
  obtain ⟨h1, h2, h3⟩ := cellReinits_preserve steps _ s' h
  unfold FEValuesState.shape_value at hbase ⊢
  rw [h1, h2, h3]
  exact hbase

/-- C4 witness: the value of basis function 1 (`x*y`) at the midpoint
quadrature point, before and after a concrete `reinit`. -/
theorem C4_shape_value_stable_witness :
    (FEValues.construct exFe exQ allFlags).shape_value 1 0 =
      Except.ok (exFe.shape_value 1 (exQ.quad_point 0)) ∧
    cellReinits [(exFe, exCellMap)] exCell = Except.ok exCellR ∧
    exCellR.shape_value 1 0 = Except.ok (exFe.shape_value 1 (exQ.quad_point 0)) := by
  have hsteps : cellReinits [(exFe, exCellMap)] exCell = Except.ok exCellR := by
    show (cellReinit exFe exCellMap exCell).bind (cellReinits []) = Except.ok exCellR
    rw [exCellR_ok]
    rfl
  have hmain := C4_shape_value_stable exFe exQ allFlags 1 0 (by norm_num [exFe])
    (by norm_num [exQ])
  exact ⟨hmain.1, hsteps, hmain.2 [(exFe, exCellMap)] exCellR hsteps⟩

/-- C8: face selection via `reinit` is idempotent and state-restoring.
For a fixed cell (one deterministic Geometry Mapper `m` and element
`fe`): after `reinit` for face `f1` and then for face `f2`, a further
`reinit` for `f1` restores the evaluator to exactly the state it had
after the first `reinit` for `f1` (so every accessor, being a pure
function of the state, reproduces its first reading exactly); and two
consecutive `reinit`s with the same face leave the state of the first.
Accessors do not modify the state, so `reinit` is the only operation
that changes which face's data is visible. -/
theorem C8_face_reinit_restores :
    (∀ (fe : FiniteElement) (m : FaceMapper) (f1 f2 : ℕ)
       (s s1 s2 : FEFaceValuesState),
       faceReinit fe m f1 s = Except.ok s1 →
       faceReinit fe m f2 s1 = Except.ok s2 →
       faceReinit fe m f1 s2 = Except.ok s1) ∧
    (∀ (fe : FiniteElement) (m : FaceMapper) (f : ℕ) (s s1 : FEFaceValuesState),
       faceReinit fe m f s = Except.ok s1 →
       faceReinit fe m f s1 = Except.ok s1) := by
  constructor
  · intro fe m f1 f2 s s1 s2 h1 h2
    obtain ⟨e1, hg, hJ⟩ := faceReinit_ok_elim fe m f1 s s1 h1
    obtain ⟨e2, -, -⟩ := faceReinit_ok_elim fe m f2 s1 s2 h2
    subst e1
    subst e2
    have hok := faceReinit_ok_intro fe m f1
      (faceRun fe m f2 (faceRun fe m f1 s))
      (by rw [faceRun_update_flags, faceRun_update_flags]; exact hg)
      (by rw [faceRun_update_flags, faceRun_update_flags]; exact hJ)
    rw [hok, faceRun_comp, faceRun_comp]
  · intro fe m f s s1 h1
    obtain ⟨e1, hg, hJ⟩ := faceReinit_ok_elim fe m f s s1 h1
    subst e1
    have hok := faceReinit_ok_intro fe m f (faceRun fe m f s)
      (by rw [faceRun_update_flags]; exact hg)
      (by rw [faceRun_update_flags]; exact hJ)
    rw [hok, faceRun_comp]

/-- C8 witness: at the fixtures, `reinit` face 1, then face 2, then
face 1 again lands exactly on the state after the first `reinit`, and
re-selecting face 2 twice is idempotent. -/
theorem C8_face_reinit_restores_witness :
    faceReinit exFe exFaceMap 1 exFace = Except.ok exFaceR1 ∧
    faceReinit exFe exFaceMap 2 exFaceR1 = Except.ok exFaceR2 ∧
    faceReinit exFe exFaceMap 1 exFaceR2 = Except.ok exFaceR1 ∧
    faceReinit exFe exFaceMap 2 exFaceR2 = Except.ok exFaceR2 :=
  ⟨rfl, rfl,
    C8_face_reinit_restores.1 exFe exFaceMap 1 2 exFace exFaceR1 exFaceR2 rfl rfl,
    C8_face_reinit_restores.2 exFe exFaceMap 2 exFaceR1 exFaceR2 rfl⟩

/-- C5 counterexample: constructing a cell evaluator with `gradients`
requested but `jacobians` omitted does NOT fail at construction -- the
constructor records the flags and builds a usable evaluator (its
`shape_value` accessor answers normally) -- and the unsatisfiable
configuration is first detected at `reinit`, which fails with the
`ExcCannotInitializeField` error.  This refutes the claim that the
violation is caught at construction time and never first detected at
`reinit`. -/
theorem C5_construction_validation_counterexample :
    (FEValues.construct exFe exQ gradNoJacFlags).update_flags = gradNoJacFlags ∧
    (FEValues.construct exFe exQ gradNoJacFlags).shape_value 0 0 =
      Except.ok (exFe.shape_value 0 (exQ.quad_point 0)) ∧
    cellReinit exFe exCellMap (FEValues.construct exFe exQ gradNoJacFlags) =
      Except.error FEError.cannotInitField :=
  ⟨rfl, rfl, rfl⟩

/-- C5 amended: the constructor performs no update-flag validation (it
is total and stores the flags unchanged); requesting `gradients` or
`jacobian_determinant_weights` without `jacobians` is first detected at
`reinit`, which fails with `ExcCannotInitializeField` -- for the cell
evaluator and the face evaluator alike. -/
theorem C5_validation_at_reinit :
    (∀ (fe : FiniteElement) (q : Quadrature) (flags : UpdateFlags),
       (FEValues.construct fe q flags).update_flags = flags) ∧
    (∀ (fe : FiniteElement) (m : CellMapper) (s : FEValuesState),
       s.update_flags.update_jacobians = false →
       (s.update_flags.update_gradients = true ∨
         s.update_flags.update_JxW_values = true) →
       cellReinit fe m s = Except.error FEError.cannotInitField) ∧
    (∀ (fe : FiniteElement) (m : FaceMapper) (f : ℕ) (s : FEFaceValuesState),
       s.update_flags.update_jacobians = false →
       (s.update_flags.update_gradients = true ∨
         s.update_flags.update_JxW_values = true) →
       faceReinit fe m f s = Except.error FEError.cannotInitField) := by
  refine ⟨fun fe q flags => rfl, ?_, ?_⟩
  · intro fe m s hjac hor
    simp only [cellReinit]
    by_cases hg : s.update_flags.update_gradients = true
    · rw [if_pos ⟨hg, by simp [hjac]⟩]
    · rcases hor with hO | hO
      · exact absurd hO hg
      · rw [if_neg (fun hc => hg hc.1), if_pos ⟨hO, by simp [hjac]⟩]
  · intro fe m f s hjac hor
    simp only [faceReinit]
    by_cases hg : s.update_flags.update_gradients = true
    · rw [if_pos ⟨hg, by simp [hjac]⟩]
    · rcases hor with hO | hO
      · exact absurd hO hg
      · rw [if_neg (fun hc => hg hc.1), if_pos ⟨hO, by simp [hjac]⟩]

/-- C5 amended witness: at the fixtures with
`gradients`-without-`jacobians` flags, construction completes carrying
the flags and both `reinit`s fail with `ExcCannotInitializeField`. -/
theorem C5_validation_at_reinit_witness :
    (FEValues.construct exFe exQ gradNoJacFlags).update_flags = gradNoJacFlags ∧
    cellReinit exFe exCellMap (FEValues.construct exFe exQ gradNoJacFlags) =
      Except.error FEError.cannotInitField ∧
    faceReinit exFe exFaceMap 0 (okOr (FEFaceValues.construct exFe exQf gradNoJacFlags) junkFace) =
      Except.error FEError.cannotInitField :=
  ⟨C5_validation_at_reinit.1 exFe exQ gradNoJacFlags,
   C5_validation_at_reinit.2.1 exFe exCellMap _ rfl (Or.inl rfl),
   C5_validation_at_reinit.2.2 exFe exFaceMap 0 _ rfl (Or.inl rfl)⟩

/-- C6 counterexample: the `shape_value` accessor performs no
update-flag validation.  With NO tag requested at construction (all
flags false, in particular the `values` tag absent), `shape_value(0,0)`
still answers with data instead of failing -- refuting the claim that
each of the listed accessors validates the accessed field's tag on
every call. -/
theorem C6_accessor_validation_counterexample :
    noFlags.update_values = false ∧
    (FEValues.construct exFe exQ noFlags).shape_value 0 0 =
      Except.ok (exFe.shape_value 0 (exQ.quad_point 0)) ∧
    (okOr (FEFaceValues.construct exFe exQf noFlags) junkFace).shape_value 0 0 =
      Except.ok (exFe.shape_value 0 [0, 0]) :=
  ⟨rfl, rfl, rfl⟩

/-- C6 amended: `shape_grad`, `quadrature_point`, `ansatz_point`
(support point) and `JxW` each validate, on every call, both the index
bounds and the presence of the field's tag, failing with the distinct
errors `ExcInvalidIndex` resp. `ExcAccessToUninitializedField`;
`shape_value` (cell and face) validates only the index bounds and
returns table data regardless of the flags -- there is no values-tag
check. -/
theorem C6_accessor_validation :
    ∀ (s : FEValuesState) (fs : FEFaceValuesState) (i j : ℕ),
      (s.total_dofs ≤ i →
        s.shape_value i j = Except.error (FEError.invalidIndex i s.total_dofs)) ∧
      (i < s.total_dofs → s.n_quadrature_points ≤ j →
        s.shape_value i j =
          Except.error (FEError.invalidIndex j s.n_quadrature_points)) ∧
      (i < s.total_dofs → j < s.n_quadrature_points →
        s.shape_value i j = Except.ok (ent s.shape_values i j)) ∧
      (s.total_dofs ≤ i →
        s.shape_grad i j = Except.error (FEError.invalidIndex i s.total_dofs)) ∧
      (i < s.total_dofs → j < s.n_quadrature_points →
        s.update_flags.update_gradients = false →
        s.shape_grad i j = Except.error FEError.accessToUninitField) ∧
      (i < s.total_dofs → j < s.n_quadrature_points →
        s.update_flags.update_gradients = true →
        s.shape_grad i j =
          Except.ok ((s.shape_gradients.getD i []).getD j [])) ∧
      (s.n_quadrature_points ≤ j →
        s.quadrature_point j =
          Except.error (FEError.invalidIndex j s.n_quadrature_points)) ∧
      (j < s.n_quadrature_points → s.update_flags.update_q_points = false →
        s.quadrature_point j = Except.error FEError.accessToUninitField) ∧
      (j < s.n_quadrature_points → s.update_flags.update_q_points = true →
        s.quadrature_point j = Except.ok (s.quadrature_points.getD j [])) ∧
      (s.total_dofs ≤ i →
        s.ansatz_point i = Except.error (FEError.invalidIndex i s.total_dofs)) ∧
      (i < s.total_dofs → s.update_flags.update_ansatz_points = false →
        s.ansatz_point i = Except.error FEError.accessToUninitField) ∧
      (i < s.total_dofs → s.update_flags.update_ansatz_points = true →
        s.ansatz_point i = Except.ok (s.ansatz_points.getD i [])) ∧
      (s.n_quadrature_points ≤ j →
        s.JxW j = Except.error (FEError.invalidIndex j s.n_quadrature_points)) ∧
      (j < s.n_quadrature_points → s.update_flags.update_JxW_values = false →
        s.JxW j = Except.error FEError.accessToUninitField) ∧
      (j < s.n_quadrature_points → s.update_flags.update_JxW_values = true →
        s.JxW j = Except.ok (s.JxW_values.getD j 0)) ∧
      (i < fs.total_dofs → j < fs.n_quadrature_points →
        fs.shape_value i j =
          Except.ok (ent3 fs.shape_values fs.selected_face i j)) ∧
      FEError.invalidIndex i s.total_dofs ≠ FEError.accessToUninitField := by
  intro s fs i j
  refine ⟨?_, ?_, ?_, ?_, ?_, ?_, ?_, ?_, ?_, ?_, ?_, ?_, ?_, ?_, ?_, ?_, ?_⟩ <;>
    intros <;>
    simp_all [FEValuesState.shape_value, FEValuesState.shape_grad,
      FEValuesState.quadrature_point, FEValuesState.ansatz_point,
      FEValuesState.JxW, FEFaceValuesState.shape_value, Nat.not_lt, Nat.lt_iff_add_one_le]

/-- C6 amended witness: concrete accessor calls -- an out-of-range
index fails with `ExcInvalidIndex`, a missing tag fails with
`ExcAccessToUninitializedField` (a distinct error), and in-range tagged
calls answer with table data. -/
theorem C6_accessor_validation_witness :
    exCell.shape_value 5 0 = Except.error (FEError.invalidIndex 5 exCell.total_dofs) ∧
    exCell.shape_grad 0 0 = Except.ok ((exCell.shape_gradients.getD 0 []).getD 0 []) ∧
    (FEValues.construct exFe exQ noFlags).shape_grad 0 0 =
      Except.error FEError.accessToUninitField ∧
    (FEValues.construct exFe exQ noFlags).JxW 0 =
      Except.error FEError.accessToUninitField ∧
    FEError.invalidIndex 5 exCell.total_dofs ≠ FEError.accessToUninitField :=
  ⟨(C6_accessor_validation exCell junkFace 5 0).1 (by decide),
   (C6_accessor_validation exCell junkFace 0 0).2.2.2.2.2.1 (by decide) (by decide) rfl,
   (C6_accessor_validation (FEValues.construct exFe exQ noFlags) junkFace 0 0).2.2.2.2.1
     (by decide) (by decide) rfl,
   (C6_accessor_validation (FEValues.construct exFe exQ noFlags) junkFace 0 0).2.2.2.2.2.2.2.2.2.2.2.2.2.1
     (by decide) rfl,
   (C6_accessor_validation exCell junkFace 5 0).2.2.2.2.2.2.2.2.2.2.2.2.2.2.2.2⟩

/-- C7 (code bug): the 2-D switch itself implements the claimed
embedding (face 0: `(t,0)`, face 1: `(1,t)`, face 2: `(t,1)`, face 3:
`(0,t)`) and any other dimension signals `ExcNotImplemented`; but the
constructor applies it to the zero-reset `unit_quadrature_points`
(filled from the quadrature rule only AFTER the embedding loop, source
lines 236-240 vs 201-234), so for a face quadrature point at coordinate
`1/2` the stored cell coordinates are `(0,0), (1,0), (0,1), (0,0)`
instead of the claimed `(1/2,0), (1,1/2), (1/2,1), (0,1/2)`. -/
theorem C7_face_embedding_bug :
    exQf.quad_point 0 = [1/2] ∧
    faceEmbed2 (1/2) 0 = [1/2, 0] ∧ faceEmbed2 (1/2) 1 = [1, 1/2] ∧
    faceEmbed2 (1/2) 2 = [1/2, 1] ∧ faceEmbed2 (1/2) 3 = [0, 1/2] ∧
    (FEFaceValues.construct exFe exQf allFlags).map
        (fun st => st.global_unit_quadrature_points) =
      Except.ok [[[0, 0]], [[1, 0]], [[0, 1]], [[0, 0]]] ∧
    ([[[(0:ℚ), 0]], [[1, 0]], [[0, 1]], [[0, 0]]] :
        List (List (List ℚ))) ≠
      [[[1/2, 0]], [[1, 1/2]], [[1/2, 1]], [[0, 1/2]]] ∧
    FEFaceValues.construct exFe3 exQf allFlags =
      Except.error FEError.notImplemented := by
  refine ⟨rfl, rfl, rfl, rfl, rfl, rfl, ?_, rfl⟩
  intro hcontra
  have h0 := congrArg (fun l => ((l.getD 0 []).getD 0 []).getD 0 (0 : ℚ)) hcontra
  norm_num at h0
